import Mathlib

/-!
Shallow embedding of `src/Code.js` (finance-app-scripts): progressive income-tax
engine, preferential-rate (qualified dividend / long-term capital gains) tax,
Net Investment Income Tax, and Child Tax Credit, together with the static
bracket tables.

Conventions of the embedding:
* JS numbers carrying monetary amounts and rates are embedded as `ℚ`
  (exact arithmetic; decimal literals such as `0.12` denote the exact
  rational).  The IEEE special values `NaN` / `Infinity`, which matter only
  for the validation-layer claims, are modelled separately by `JSNum` with
  the exact JavaScript comparison/arithmetic semantics for those values.
* A `year` argument can be any JS value; the code only distinguishes
  numbers (via `typeof`), so `JSYear` keeps a rational payload for numeric
  years, plus `nan` and a non-number case.
* `throw new Error(...)` becomes `Except.error` with a structured
  `TaxError` that records which guard fired (and, for `InvalidAmount`,
  the offending field name used in the message).
-/

/-- A JavaScript number: a finite value (embedded exactly as `ℚ`), `NaN`,
`Infinity`, or `-Infinity`. -/
inductive JSNum where
  | num (q : ℚ)
  | nan
  | inf
  | ninf
deriving DecidableEq

/-- JS `a < b` on numbers: any comparison with `NaN` is `false`. -/
def JSNum.lt : JSNum → JSNum → Bool
  | .nan, _ => false
  | _, .nan => false
  | .num a, .num b => decide (a < b)
  | .num _, .inf => true
  | .num _, .ninf => false
  | .inf, _ => false
  | .ninf, .ninf => false
  | .ninf, _ => true

/-- JS `a <= b` on numbers: any comparison with `NaN` is `false`. -/
def JSNum.le : JSNum → JSNum → Bool
  | .nan, _ => false
  | _, .nan => false
  | .ninf, _ => true
  | .num _, .ninf => false
  | .inf, .ninf => false
  | .num a, .num b => decide (a ≤ b)
  | _, .inf => true
  | .inf, _ => false

/-- JS `Math.min`: `NaN` if either argument is `NaN`. -/
def JSNum.min : JSNum → JSNum → JSNum
  | .nan, _ => .nan
  | _, .nan => .nan
  | .ninf, _ => .ninf
  | _, .ninf => .ninf
  | .num a, .num b => .num (Min.min a b)
  | .inf, b => b
  | a, .inf => a

/-- JS `Math.max`: `NaN` if either argument is `NaN`. -/
def JSNum.max : JSNum → JSNum → JSNum
  | .nan, _ => .nan
  | _, .nan => .nan
  | .inf, _ => .inf
  | _, .inf => .inf
  | .num a, .num b => .num (Max.max a b)
  | .ninf, b => b
  | a, .ninf => a

/-- JS subtraction with the IEEE special-value rules. -/
def JSNum.sub : JSNum → JSNum → JSNum
  | .nan, _ => .nan
  | _, .nan => .nan
  | .inf, .inf => .nan
  | .ninf, .ninf => .nan
  | .inf, _ => .inf
  | .ninf, _ => .ninf
  | .num _, .inf => .ninf
  | .num _, .ninf => .inf
  | .num a, .num b => .num (a - b)

/-- JS addition with the IEEE special-value rules. -/
def JSNum.add : JSNum → JSNum → JSNum
  | .nan, _ => .nan
  | _, .nan => .nan
  | .inf, .ninf => .nan
  | .ninf, .inf => .nan
  | .inf, _ => .inf
  | _, .inf => .inf
  | .ninf, _ => .ninf
  | _, .ninf => .ninf
  | .num a, .num b => .num (a + b)

/-- JS multiplication with the IEEE special-value rules (`Infinity * 0 = NaN`). -/
def JSNum.mul : JSNum → JSNum → JSNum
  | .nan, _ => .nan
  | _, .nan => .nan
  | .num a, .num b => .num (a * b)
  | .num a, .inf => if 0 < a then .inf else if a < 0 then .ninf else .nan
  | .num a, .ninf => if 0 < a then .ninf else if a < 0 then .inf else .nan
  | .inf, .num b => if 0 < b then .inf else if b < 0 then .ninf else .nan
  | .inf, .inf => .inf
  | .inf, .ninf => .ninf
  | .ninf, .num b => if 0 < b then .ninf else if b < 0 then .inf else .nan
  | .ninf, .inf => .ninf
  | .ninf, .ninf => .inf

/-- The `year` argument as the code sees it: a numeric year (`typeof year
=== 'number'`, finite value as `ℚ`), the numeric value `NaN`, or any
non-number JS value. -/
inductive JSYear where
  | num (q : ℚ)
  | nan
  | nonNumber
deriving DecidableEq

/-- The jurisdiction keys of `TAX_CONFIG.JURISDICTIONS`. -/
inductive Jurisdiction where
  | federal
  | ny
  | ca
deriving DecidableEq

/-- The distinct `throw new Error(...)` sites of `src/Code.js`.
`invalidAmount` records the field name interpolated into
"... must be a non-negative number"; `unsupportedYearMin` records the
minimum year interpolated into "Year must be ... or later". -/
inductive TaxError where
  | invalidAmount (field : String)
  | invalidCount
  | unsupportedYearMin (minYear : ℚ)
  | unsupportedYearSet
  | unknownJurisdiction
  | bracketsUnavailable
  | creditUnavailable
deriving DecidableEq

/-! ## `TAX_CONFIG` constants -/

def MAX_INCOME : ℚ := 100000000

def SUPPORTED_YEARS : List ℚ := [2023, 2024, 2025, 2026]

def CA_MENTAL_HEALTH_TAX_RATE : ℚ := 0.01

def CA_MENTAL_HEALTH_TAX_THRESHOLD : ℚ := 1000000

def NIIT_RATE : ℚ := 0.038

def NIIT_THRESHOLD : ℚ := 250000

def CTC_PHASE_OUT_THRESHOLD : ℚ := 400000

def CTC_PHASE_OUT_RATE : ℚ := 50

def CTC_PHASE_OUT_INCREMENT : ℚ := 1000

/-! ## `TAX_BRACKETS` -/

def federal2023 : List (ℚ × ℚ) :=
  [(22000, 0.10), (89450, 0.12), (190750, 0.22), (364200, 0.24),
   (462500, 0.32), (693750, 0.35), (MAX_INCOME, 0.37)]

def federal2024 : List (ℚ × ℚ) :=
  [(23200, 0.10), (94300, 0.12), (201050, 0.22), (383900, 0.24),
   (487450, 0.32), (731200, 0.35), (MAX_INCOME, 0.37)]

def federal2025 : List (ℚ × ℚ) :=
  [(23850, 0.10), (96950, 0.12), (206700, 0.22), (394600, 0.24),
   (501050, 0.32), (751600, 0.35), (MAX_INCOME, 0.37)]

def federal2026 : List (ℚ × ℚ) :=
  [(24800, 0.10), (100800, 0.12), (211400, 0.22), (403550, 0.24),
   (512450, 0.32), (768700, 0.35), (MAX_INCOME, 0.37)]

def ny2023 : List (ℚ × ℚ) :=
  [(17150, 0.04), (23600, 0.045), (27900, 0.0525), (161550, 0.055),
   (323200, 0.06), (2155350, 0.0685), (5000000, 0.0965), (25000000, 0.103),
   (MAX_INCOME, 0.109)]

def ny2024 : List (ℚ × ℚ) :=
  [(17150, 0.04), (23600, 0.045), (27900, 0.0525), (161550, 0.055),
   (323200, 0.06), (2155350, 0.0685), (5000000, 0.0965), (25000000, 0.103),
   (MAX_INCOME, 0.109)]

def ny2025 : List (ℚ × ℚ) :=
  [(17150, 0.04), (23600, 0.045), (27900, 0.0525), (161550, 0.055),
   (323200, 0.06), (2155350, 0.0685), (5000000, 0.0965), (25000000, 0.103),
   (MAX_INCOME, 0.109)]

def ny2026 : List (ℚ × ℚ) :=
  [(17150, 0.04), (23600, 0.045), (27900, 0.0525), (161550, 0.055),
   (323200, 0.06), (2155350, 0.0685), (5000000, 0.0965), (25000000, 0.103),
   (MAX_INCOME, 0.109)]

def ca2023 : List (ℚ × ℚ) :=
  [(20924, 0.01), (49564, 0.02), (78252, 0.04), (108616, 0.06),
   (137284, 0.08), (701308, 0.093), (841572, 0.103), (1402620, 0.113),
   (MAX_INCOME, 0.123)]

def ca2024 : List (ℚ × ℚ) :=
  [(21512, 0.01), (50998, 0.02), (80490, 0.04), (111732, 0.06),
   (141212, 0.08), (721318, 0.093), (865574, 0.103), (1442628, 0.113),
   (MAX_INCOME, 0.123)]

def ca2025 : List (ℚ × ℚ) :=
  [(22222, 0.01), (52682, 0.02), (83146, 0.04), (115418, 0.06),
   (145912, 0.08), (745121, 0.093), (894338, 0.103), (1490235, 0.113),
   (MAX_INCOME, 0.123)]

def ca2026 : List (ℚ × ℚ) :=
  [(22956, 0.01), (54421, 0.02), (85890, 0.04), (119307, 0.06),
   (150657, 0.08), (769900, 0.093), (924503, 0.103), (1539143, 0.113),
   (MAX_INCOME, 0.123)]

/-- `TAX_BRACKETS[jurisdiction][year]` for a numeric year key. -/
def TAX_BRACKETS (j : Jurisdiction) (year : ℚ) : Option (List (ℚ × ℚ)) :=
  match j with
  | .federal =>
    if year = 2023 then some federal2023
    else if year = 2024 then some federal2024
    else if year = 2025 then some federal2025
    else if year = 2026 then some federal2026
    else none
  | .ny =>
    if year = 2023 then some ny2023
    else if year = 2024 then some ny2024
    else if year = 2025 then some ny2025
    else if year = 2026 then some ny2026
    else none
  | .ca =>
    if year = 2023 then some ca2023
    else if year = 2024 then some ca2024
    else if year = 2025 then some ca2025
    else if year = 2026 then some ca2026
    else none

/-- `TAX_BRACKETS[jurisdiction][year]` on an arbitrary year value: a
non-number key (or `NaN`) misses the object's numeric keys. -/
def bracketsFor (j : Jurisdiction) (year : JSYear) : Option (List (ℚ × ℚ)) :=
  match year with
  | .num q => TAX_BRACKETS j q
  | _ => none

/-! ## `CHILD_TAX_CREDIT_AMOUNTS` -/

/-- `(creditPerChild, refundableAmount)` per year. -/
def CHILD_TAX_CREDIT_AMOUNTS (year : ℚ) : Option (ℚ × ℚ) :=
  if year = 2023 then some (2000, 1600)
  else if year = 2024 then some (2000, 1700)
  else if year = 2025 then some (2200, 1700)
  else if year = 2026 then some (2200, 1700)
  else none

/-- `CHILD_TAX_CREDIT_AMOUNTS[year]` on an arbitrary year value. -/
def childCreditFor (year : JSYear) : Option (ℚ × ℚ) :=
  match year with
  | .num q => CHILD_TAX_CREDIT_AMOUNTS q
  | _ => none

/-! ## `QUALIFIED_DIVIDEND_BRACKETS` -/

def qd2023 : List (ℚ × ℚ) := [(89250, 0.00), (553850, 0.15), (MAX_INCOME, 0.20)]

def qd2024 : List (ℚ × ℚ) := [(94050, 0.00), (583750, 0.15), (MAX_INCOME, 0.20)]

def qd2025 : List (ℚ × ℚ) := [(96700, 0.00), (600050, 0.15), (MAX_INCOME, 0.20)]

def qd2026 : List (ℚ × ℚ) := [(98900, 0.00), (613700, 0.15), (MAX_INCOME, 0.20)]

def QUALIFIED_DIVIDEND_BRACKETS (year : ℚ) : Option (List (ℚ × ℚ)) :=
  if year = 2023 then some qd2023
  else if year = 2024 then some qd2024
  else if year = 2025 then some qd2025
  else if year = 2026 then some qd2026
  else none

/-- `QUALIFIED_DIVIDEND_BRACKETS[year]` on an arbitrary year value. -/
def qdBracketsFor (year : JSYear) : Option (List (ℚ × ℚ)) :=
  match year with
  | .num q => QUALIFIED_DIVIDEND_BRACKETS q
  | _ => none

/-! ## Validators -/

/-- `_validateNonNegativeNumber(value, fieldName)` on a finite numeric
value (the `typeof` guard is satisfied by construction here; `JSNum`
special values are handled by the `JS` variant below). -/
def _validateNonNegativeNumber (value : ℚ) (fieldName : String) : Except TaxError Unit :=
  if value < 0 then .error (.invalidAmount fieldName) else .ok ()

/-- `_validateNonNegativeNumber(value, fieldName)` with JavaScript number
semantics: the check is `typeof value !== 'number' || value < 0`, and a
`JSNum` always has `typeof === 'number'`, so only `value < 0` can fire
(`NaN < 0` and `Infinity < 0` are `false`). -/
def _validateNonNegativeNumberJS (value : JSNum) (fieldName : String) : Except TaxError Unit :=
  if value.lt (.num 0) then .error (.invalidAmount fieldName) else .ok ()

/-- `_validateYear(year, minYear)`; `minYear = none` is the JS default
`null`, selecting the `SUPPORTED_YEARS.includes(year)` membership check.
With a `minYear`, the guard is `typeof year !== 'number' || year < minYear`
(so the numeric value `NaN` passes, since `NaN < minYear` is `false`). -/
def _validateYear (year : JSYear) (minYear : Option ℚ) : Except TaxError Unit :=
  match minYear with
  | some m =>
    match year with
    | .num q => if q < m then .error (.unsupportedYearMin m) else .ok ()
    | .nan => .ok ()
    | .nonNumber => .error (.unsupportedYearMin m)
  | none =>
    match year with
    | .num q => if q ∈ SUPPORTED_YEARS then .ok () else .error .unsupportedYearSet
    | _ => .error .unsupportedYearSet

/-- `_validateTaxInputs(income, year, jurisdiction)`.  The jurisdiction
argument is already one of the keys of `TAX_CONFIG.JURISDICTIONS` by
typing, so the `in` check always passes. -/
def _validateTaxInputs (income : ℚ) (year : JSYear) (_jurisdiction : Jurisdiction) :
    Except TaxError Unit :=
  match _validateNonNegativeNumber income "Income" with
  | .error e => .error e
  | .ok _ =>
    match _validateYear year none with
    | .error e => .error e
    | .ok _ => .ok ()

/-! ## Progressive tax evaluator -/

/-- The loop body of `_calculateProgressiveTax`: walk the brackets with the
running `previousBracketThreshold`, adding
`max(0, min(income, bracketThreshold) - previousBracketThreshold) * taxRate`
per bracket and stopping once `income <= bracketThreshold`. -/
def progressiveTaxAux : List (ℚ × ℚ) → ℚ → ℚ → ℚ
  | [], _, _ => 0
  | (bracketThreshold, taxRate) :: rest, previousBracketThreshold, income =>
    let taxableIncomeInBracket :=
      max 0 (min income bracketThreshold - previousBracketThreshold)
    let taxForBracket := taxableIncomeInBracket * taxRate
    if income ≤ bracketThreshold then taxForBracket
    else taxForBracket + progressiveTaxAux rest bracketThreshold income

/-- `_calculateProgressiveTax(taxBrackets, income)`. -/
def _calculateProgressiveTax (taxBrackets : List (ℚ × ℚ)) (income : ℚ) : ℚ :=
  progressiveTaxAux taxBrackets 0 income

/-- `_calculateIncomeTax(income, year, jurisdiction)`. -/
def _calculateIncomeTax (income : ℚ) (year : JSYear) (jurisdiction : Jurisdiction) :
    Except TaxError ℚ :=
  match _validateTaxInputs income year jurisdiction with
  | .error e => .error e
  | .ok _ =>
    match bracketsFor jurisdiction year with
    | none => .error .bracketsUnavailable
    | some brackets => .ok (_calculateProgressiveTax brackets income)

/-- `_calculateCAMentalHealthTax(income)`. -/
def _calculateCAMentalHealthTax (income : ℚ) : ℚ :=
  max 0 (income - CA_MENTAL_HEALTH_TAX_THRESHOLD) * CA_MENTAL_HEALTH_TAX_RATE

/-- `getFederalIncomeTax(income, year)`. -/
def getFederalIncomeTax (income : ℚ) (year : JSYear) : Except TaxError ℚ :=
  _calculateIncomeTax income year .federal

/-- `getNYIncomeTax(income, year)`. -/
def getNYIncomeTax (income : ℚ) (year : JSYear) : Except TaxError ℚ :=
  _calculateIncomeTax income year .ny

/-- `getCAIncomeTax(income, year)`: base bracket tax plus the Mental Health
Services surtax, composed unrounded. -/
def getCAIncomeTax (income : ℚ) (year : JSYear) : Except TaxError ℚ :=
  match _calculateIncomeTax income year .ca with
  | .error e => .error e
  | .ok baseTax => .ok (baseTax + _calculateCAMentalHealthTax income)

/-! ## Preferential-rate (flat single-rate) evaluator -/

/-- The rate-selection loop of `_calculatePreferentialTax`:
`applicableRate = rate` each iteration, stopping at the first bracket with
`totalTaxableIncome <= threshold`. -/
def applicableRateLoop : List (ℚ × ℚ) → ℚ → ℚ → ℚ
  | [], _, applicableRate => applicableRate
  | (threshold, rate) :: rest, totalTaxableIncome, _ =>
    if totalTaxableIncome ≤ threshold then rate
    else applicableRateLoop rest totalTaxableIncome rate

/-- `_calculatePreferentialTax(amount, totalTaxableIncome, year, assetType)`:
selects a single applicable rate from the total taxable income and applies
it to the whole amount. -/
def _calculatePreferentialTax (amount totalTaxableIncome : ℚ) (year : JSYear)
    (assetType : String) : Except TaxError ℚ :=
  match _validateNonNegativeNumber amount assetType with
  | .error e => .error e
  | .ok _ =>
    match _validateNonNegativeNumber totalTaxableIncome "Total taxable income" with
    | .error e => .error e
    | .ok _ =>
      match _validateYear year none with
      | .error e => .error e
      | .ok _ =>
        match qdBracketsFor year with
        | none => .error .bracketsUnavailable
        | some brackets => .ok (amount * applicableRateLoop brackets totalTaxableIncome 0)

/-- `getQualifiedDividendTax(qualifiedDividends, totalTaxableIncome, year)`. -/
def getQualifiedDividendTax (qualifiedDividends totalTaxableIncome : ℚ)
    (year : JSYear) : Except TaxError ℚ :=
  _calculatePreferentialTax qualifiedDividends totalTaxableIncome year "Qualified dividends"

/-- `getLongTermCapitalGainsTax(longTermCapitalGains, totalTaxableIncome, year)`. -/
def getLongTermCapitalGainsTax (longTermCapitalGains totalTaxableIncome : ℚ)
    (year : JSYear) : Except TaxError ℚ :=
  _calculatePreferentialTax longTermCapitalGains totalTaxableIncome year "Long-term capital gains"

/-! ## Net Investment Income Tax -/

/-- `getNetInvestmentIncomeTax(netInvestmentIncome, modifiedAGI, year)`. -/
def getNetInvestmentIncomeTax (netInvestmentIncome modifiedAGI : ℚ)
    (year : JSYear) : Except TaxError ℚ :=
  match _validateNonNegativeNumber netInvestmentIncome "Net investment income" with
  | .error e => .error e
  | .ok _ =>
    match _validateNonNegativeNumber modifiedAGI "Modified AGI" with
    | .error e => .error e
    | .ok _ =>
      match _validateYear year (some 2013) with
      | .error e => .error e
      | .ok _ =>
        let excessIncome := max 0 (modifiedAGI - NIIT_THRESHOLD)
        let taxableAmount := min netInvestmentIncome excessIncome
        .ok (taxableAmount * NIIT_RATE)

/-! ## Child Tax Credit -/

/-- `getChildTaxCredit(numberOfChildren, modifiedAGI, year)`.  The child
count is embedded as `ℤ`, which satisfies the `Number.isInteger` part of
the guard by construction; the `numberOfChildren < 0` part remains. -/
def getChildTaxCredit (numberOfChildren : ℤ) (modifiedAGI : ℚ)
    (year : JSYear) : Except TaxError ℚ :=
  if numberOfChildren < 0 then .error .invalidCount
  else
    match _validateNonNegativeNumber modifiedAGI "Modified AGI" with
    | .error e => .error e
    | .ok _ =>
      match _validateYear year none with
      | .error e => .error e
      | .ok _ =>
        match childCreditFor year with
        | none => .error .creditUnavailable
        | some creditData =>
          let baseCredit : ℚ := creditData.1 * numberOfChildren
          if numberOfChildren = 0 ∨ baseCredit = 0 then .ok 0
          else if modifiedAGI ≤ CTC_PHASE_OUT_THRESHOLD then .ok baseCredit
          else
            let excessIncome := modifiedAGI - CTC_PHASE_OUT_THRESHOLD
            let increments : ℤ := ⌈excessIncome / CTC_PHASE_OUT_INCREMENT⌉
            let reduction : ℚ := increments * CTC_PHASE_OUT_RATE
            .ok (max 0 (baseCredit - reduction))

/-! ## JavaScript-semantics layer for the progressive entry point

Used to settle what the code does when a non-finite number slips through
`_validateNonNegativeNumber` (whose guard cannot fire on `NaN`/`Infinity`). -/

/-- The `_calculateProgressiveTax` loop with JS number semantics and an
explicit `totalTax` accumulator, exactly mirroring the source loop. -/
def progressiveTaxJSAux : List (ℚ × ℚ) → JSNum → JSNum → JSNum → JSNum
  | [], _, _, totalTax => totalTax
  | (bracketThreshold, taxRate) :: rest, previousBracketThreshold, income, totalTax =>
    let taxableIncomeInBracket :=
      JSNum.max (.num 0) (JSNum.sub (JSNum.min income (.num bracketThreshold)) previousBracketThreshold)
    let taxForBracket := JSNum.mul taxableIncomeInBracket (.num taxRate)
    let totalTax := JSNum.add totalTax taxForBracket
    if income.le (.num bracketThreshold) then totalTax
    else progressiveTaxJSAux rest (.num bracketThreshold) income totalTax

/-- `getFederalIncomeTax(income, year)` with the income kept as a raw JS
number, so that `NaN` and `Infinity` flow as they do in the source. -/
def getFederalIncomeTaxJS (income : JSNum) (year : JSYear) : Except TaxError JSNum :=
  match _validateNonNegativeNumberJS income "Income" with
  | .error e => .error e
  | .ok _ =>
    match _validateYear year none with
    | .error e => .error e
    | .ok _ =>
      match bracketsFor .federal year with
      | none => .error .bracketsUnavailable
      | some brackets => .ok (progressiveTaxJSAux brackets (.num 0) income (.num 0))

/-! ## The spec's stacking policy (reference definition)

The stacking policy the spec prescribes for the preferential-rate
calculation (spec §4.2), written from the spec's words for comparison with
`_calculatePreferentialTax`: ordinary income `totalTaxableIncome - amount`
fills brackets first; for each bracket the portion of the amount taxed at
that bracket's rate is
`min(remaining amount, max(0, threshold - max(ordinaryIncome, previousThreshold)))`. -/
def stackingAux : List (ℚ × ℚ) → ℚ → ℚ → ℚ → ℚ
  | [], _, _, _ => 0
  | (threshold, rate) :: rest, ordinaryIncome, previousThreshold, remaining =>
    let portion := min remaining (max 0 (threshold - max ordinaryIncome previousThreshold))
    portion * rate + stackingAux rest ordinaryIncome threshold (remaining - portion)

/-- Stacking-policy preferential tax per the spec: apportion `amount`
across the brackets it spans above `ordinaryIncome = total - amount`. -/
def stackingPreferentialTax (brackets : List (ℚ × ℚ)) (amount totalTaxableIncome : ℚ) : ℚ :=
  stackingAux brackets (totalTaxableIncome - amount) 0 amount

/-! ## Validity of a bracket table

The spec's `BracketTable` invariant (§3): non-empty, strictly increasing
thresholds, rates in `[0,1]`; thresholds are `Money`, and all monetary
values are non-negative. -/
def ValidBracketTable (bs : List (ℚ × ℚ)) : Prop :=
  bs ≠ [] ∧ List.Chain' (fun a b => a.1 < b.1) bs ∧
    (∀ p ∈ bs, 0 ≤ p.1) ∧ (∀ p ∈ bs, 0 ≤ p.2 ∧ p.2 ≤ 1)

instance (bs : List (ℚ × ℚ)) : Decidable (ValidBracketTable bs) := by
  unfold ValidBracketTable
  infer_instance

/-! ## Helper lemmas -/

theorem validateNonNeg_ok {v : ℚ} (h : 0 ≤ v) (f : String) :
    _validateNonNegativeNumber v f = .ok () := by
  rw [_validateNonNegativeNumber, if_neg (not_lt.mpr h)]

theorem validateYear_mem {q : ℚ} (h : q ∈ SUPPORTED_YEARS) :
    _validateYear (.num q) none = .ok () := by
  simp [_validateYear, h]

theorem calcIncomeTax_ok (i q : ℚ) (j : Jurisdiction) (tbl : List (ℚ × ℚ))
    (hi : 0 ≤ i) (hq : q ∈ SUPPORTED_YEARS) (ht : TAX_BRACKETS j q = some tbl) :
    _calculateIncomeTax i (.num q) j = .ok (_calculateProgressiveTax tbl i) := by
  unfold _calculateIncomeTax _validateTaxInputs
  rw [validateNonNeg_ok hi, validateYear_mem hq]
  simp [bracketsFor, ht]

theorem progressiveTaxAux_nonneg (bs : List (ℚ × ℚ)) :
    ∀ (prev income : ℚ), (∀ p ∈ bs, 0 ≤ p.2) → 0 ≤ progressiveTaxAux bs prev income := by
  induction bs with
  | nil => intro prev income _; simp [progressiveTaxAux]
  | cons hd tl ih =>
    intro prev income hr
    obtain ⟨t, r⟩ := hd
    have hr0 : 0 ≤ r := hr (t, r) (List.mem_cons_self _ _)
    have htl : ∀ p ∈ tl, 0 ≤ p.2 := fun p hp => hr p (List.mem_cons_of_mem _ hp)
    simp only [progressiveTaxAux]
    split
    · exact mul_nonneg (le_max_left 0 _) hr0
    · exact add_nonneg (mul_nonneg (le_max_left 0 _) hr0) (ih t income htl)

theorem progressiveTaxAux_mono (bs : List (ℚ × ℚ)) :
    ∀ (prev i1 i2 : ℚ), (∀ p ∈ bs, 0 ≤ p.2) → i1 ≤ i2 →
      progressiveTaxAux bs prev i1 ≤ progressiveTaxAux bs prev i2 := by
  induction bs with
  | nil => intro prev i1 i2 _ _; simp [progressiveTaxAux]
  | cons hd tl ih =>
    intro prev i1 i2 hr h
    obtain ⟨t, r⟩ := hd
    have hr0 : 0 ≤ r := hr (t, r) (List.mem_cons_self _ _)
    have htl : ∀ p ∈ tl, 0 ≤ p.2 := fun p hp => hr p (List.mem_cons_of_mem _ hp)
    have hslice : max 0 (min i1 t - prev) * r ≤ max 0 (min i2 t - prev) * r :=
      mul_le_mul_of_nonneg_right
        (max_le_max le_rfl (sub_le_sub_right (min_le_min h le_rfl) prev)) hr0
    simp only [progressiveTaxAux]
    by_cases h2 : i2 ≤ t
    · rw [if_pos (le_trans h h2), if_pos h2]
      exact hslice
    · rw [if_neg h2]
      by_cases h1 : i1 ≤ t
      · rw [if_pos h1]
        exact le_add_of_le_of_nonneg hslice (progressiveTaxAux_nonneg tl t i2 htl)
      · rw [if_neg h1]
        exact add_le_add hslice (ih t i1 i2 htl h)

theorem progressiveTaxAux_zero (bs : List (ℚ × ℚ)) (prev : ℚ) (hprev : 0 ≤ prev)
    (hth : ∀ p ∈ bs, 0 ≤ p.1) : progressiveTaxAux bs prev 0 = 0 := by
  cases bs with
  | nil => simp [progressiveTaxAux]
  | cons hd tl =>
    obtain ⟨t, r⟩ := hd
    have ht0 : 0 ≤ t := hth (t, r) (List.mem_cons_self _ _)
    simp only [progressiveTaxAux]
    rw [if_pos ht0, min_eq_left ht0, max_eq_left (by linarith), zero_mul]

theorem progressiveTaxAux_high (i1 i2 : ℚ) : ∀ (bs : List (ℚ × ℚ)) (prev : ℚ),
    (∀ p ∈ bs, p.1 < i1) → (∀ p ∈ bs, p.1 < i2) →
      progressiveTaxAux bs prev i1 = progressiveTaxAux bs prev i2 := by
  intro bs
  induction bs with
  | nil => intro prev _ _; simp [progressiveTaxAux]
  | cons hd tl ih =>
    intro prev h1 h2
    obtain ⟨t, r⟩ := hd
    have ht1 : t < i1 := h1 (t, r) (List.mem_cons_self _ _)
    have ht2 : t < i2 := h2 (t, r) (List.mem_cons_self _ _)
    simp only [progressiveTaxAux]
    rw [if_neg (not_le.mpr ht1), if_neg (not_le.mpr ht2),
      min_eq_right ht1.le, min_eq_right ht2.le,
      ih t (fun p hp => h1 p (List.mem_cons_of_mem _ hp))
        (fun p hp => h2 p (List.mem_cons_of_mem _ hp))]

theorem valid_federal2023 : ValidBracketTable federal2023 := by
  refine ⟨by simp [federal2023], ?_, ?_, ?_⟩ <;>
    norm_num [federal2023, MAX_INCOME, List.chain'_cons]

theorem bounded_federal2023 : ∀ p ∈ federal2023, p.1 ≤ MAX_INCOME := by
  norm_num [federal2023, MAX_INCOME]

theorem capeq_federal2023 : _calculateProgressiveTax federal2023 (MAX_INCOME + 1)
    = _calculateProgressiveTax federal2023 MAX_INCOME := by
  norm_num [_calculateProgressiveTax, progressiveTaxAux, federal2023, MAX_INCOME]

theorem valid_federal2024 : ValidBracketTable federal2024 := by
  refine ⟨by simp [federal2024], ?_, ?_, ?_⟩ <;>
    norm_num [federal2024, MAX_INCOME, List.chain'_cons]

theorem bounded_federal2024 : ∀ p ∈ federal2024, p.1 ≤ MAX_INCOME := by
  norm_num [federal2024, MAX_INCOME]

theorem capeq_federal2024 : _calculateProgressiveTax federal2024 (MAX_INCOME + 1)
    = _calculateProgressiveTax federal2024 MAX_INCOME := by
  norm_num [_calculateProgressiveTax, progressiveTaxAux, federal2024, MAX_INCOME]

theorem valid_federal2025 : ValidBracketTable federal2025 := by
  refine ⟨by simp [federal2025], ?_, ?_, ?_⟩ <;>
    norm_num [federal2025, MAX_INCOME, List.chain'_cons]

theorem bounded_federal2025 : ∀ p ∈ federal2025, p.1 ≤ MAX_INCOME := by
  norm_num [federal2025, MAX_INCOME]

theorem capeq_federal2025 : _calculateProgressiveTax federal2025 (MAX_INCOME + 1)
    = _calculateProgressiveTax federal2025 MAX_INCOME := by
  norm_num [_calculateProgressiveTax, progressiveTaxAux, federal2025, MAX_INCOME]

theorem valid_federal2026 : ValidBracketTable federal2026 := by
  refine ⟨by simp [federal2026], ?_, ?_, ?_⟩ <;>
    norm_num [federal2026, MAX_INCOME, List.chain'_cons]

theorem bounded_federal2026 : ∀ p ∈ federal2026, p.1 ≤ MAX_INCOME := by
  norm_num [federal2026, MAX_INCOME]

theorem capeq_federal2026 : _calculateProgressiveTax federal2026 (MAX_INCOME + 1)
    = _calculateProgressiveTax federal2026 MAX_INCOME := by
  norm_num [_calculateProgressiveTax, progressiveTaxAux, federal2026, MAX_INCOME]

theorem valid_ny2023 : ValidBracketTable ny2023 := by
  refine ⟨by simp [ny2023], ?_, ?_, ?_⟩ <;>
    norm_num [ny2023, MAX_INCOME, List.chain'_cons]

theorem bounded_ny2023 : ∀ p ∈ ny2023, p.1 ≤ MAX_INCOME := by
  norm_num [ny2023, MAX_INCOME]

theorem capeq_ny2023 : _calculateProgressiveTax ny2023 (MAX_INCOME + 1)
    = _calculateProgressiveTax ny2023 MAX_INCOME := by
  norm_num [_calculateProgressiveTax, progressiveTaxAux, ny2023, MAX_INCOME]

theorem valid_ny2024 : ValidBracketTable ny2024 := by
  refine ⟨by simp [ny2024], ?_, ?_, ?_⟩ <;>
    norm_num [ny2024, MAX_INCOME, List.chain'_cons]

theorem bounded_ny2024 : ∀ p ∈ ny2024, p.1 ≤ MAX_INCOME := by
  norm_num [ny2024, MAX_INCOME]

theorem capeq_ny2024 : _calculateProgressiveTax ny2024 (MAX_INCOME + 1)
    = _calculateProgressiveTax ny2024 MAX_INCOME := by
  norm_num [_calculateProgressiveTax, progressiveTaxAux, ny2024, MAX_INCOME]

theorem valid_ny2025 : ValidBracketTable ny2025 := by
  refine ⟨by simp [ny2025], ?_, ?_, ?_⟩ <;>
    norm_num [ny2025, MAX_INCOME, List.chain'_cons]

theorem bounded_ny2025 : ∀ p ∈ ny2025, p.1 ≤ MAX_INCOME := by
  norm_num [ny2025, MAX_INCOME]

theorem capeq_ny2025 : _calculateProgressiveTax ny2025 (MAX_INCOME + 1)
    = _calculateProgressiveTax ny2025 MAX_INCOME := by
  norm_num [_calculateProgressiveTax, progressiveTaxAux, ny2025, MAX_INCOME]

theorem valid_ny2026 : ValidBracketTable ny2026 := by
  refine ⟨by simp [ny2026], ?_, ?_, ?_⟩ <;>
    norm_num [ny2026, MAX_INCOME, List.chain'_cons]

theorem bounded_ny2026 : ∀ p ∈ ny2026, p.1 ≤ MAX_INCOME := by
  norm_num [ny2026, MAX_INCOME]

theorem capeq_ny2026 : _calculateProgressiveTax ny2026 (MAX_INCOME + 1)
    = _calculateProgressiveTax ny2026 MAX_INCOME := by
  norm_num [_calculateProgressiveTax, progressiveTaxAux, ny2026, MAX_INCOME]

theorem valid_ca2023 : ValidBracketTable ca2023 := by
  refine ⟨by simp [ca2023], ?_, ?_, ?_⟩ <;>
    norm_num [ca2023, MAX_INCOME, List.chain'_cons]

theorem bounded_ca2023 : ∀ p ∈ ca2023, p.1 ≤ MAX_INCOME := by
  norm_num [ca2023, MAX_INCOME]

theorem capeq_ca2023 : _calculateProgressiveTax ca2023 (MAX_INCOME + 1)
    = _calculateProgressiveTax ca2023 MAX_INCOME := by
  norm_num [_calculateProgressiveTax, progressiveTaxAux, ca2023, MAX_INCOME]

theorem valid_ca2024 : ValidBracketTable ca2024 := by
  refine ⟨by simp [ca2024], ?_, ?_, ?_⟩ <;>
    norm_num [ca2024, MAX_INCOME, List.chain'_cons]

theorem bounded_ca2024 : ∀ p ∈ ca2024, p.1 ≤ MAX_INCOME := by
  norm_num [ca2024, MAX_INCOME]

theorem capeq_ca2024 : _calculateProgressiveTax ca2024 (MAX_INCOME + 1)
    = _calculateProgressiveTax ca2024 MAX_INCOME := by
  norm_num [_calculateProgressiveTax, progressiveTaxAux, ca2024, MAX_INCOME]

theorem valid_ca2025 : ValidBracketTable ca2025 := by
  refine ⟨by simp [ca2025], ?_, ?_, ?_⟩ <;>
    norm_num [ca2025, MAX_INCOME, List.chain'_cons]

theorem bounded_ca2025 : ∀ p ∈ ca2025, p.1 ≤ MAX_INCOME := by
  norm_num [ca2025, MAX_INCOME]

theorem capeq_ca2025 : _calculateProgressiveTax ca2025 (MAX_INCOME + 1)
    = _calculateProgressiveTax ca2025 MAX_INCOME := by
  norm_num [_calculateProgressiveTax, progressiveTaxAux, ca2025, MAX_INCOME]

theorem valid_ca2026 : ValidBracketTable ca2026 := by
  refine ⟨by simp [ca2026], ?_, ?_, ?_⟩ <;>
    norm_num [ca2026, MAX_INCOME, List.chain'_cons]

theorem bounded_ca2026 : ∀ p ∈ ca2026, p.1 ≤ MAX_INCOME := by
  norm_num [ca2026, MAX_INCOME]

theorem capeq_ca2026 : _calculateProgressiveTax ca2026 (MAX_INCOME + 1)
    = _calculateProgressiveTax ca2026 MAX_INCOME := by
  norm_num [_calculateProgressiveTax, progressiveTaxAux, ca2026, MAX_INCOME]

theorem progressiveTax_capped {tbl : List (ℚ × ℚ)}
    (hbound : ∀ p ∈ tbl, p.1 ≤ MAX_INCOME)
    (heq : _calculateProgressiveTax tbl (MAX_INCOME + 1) = _calculateProgressiveTax tbl MAX_INCOME)
    {i : ℚ} (hi : MAX_INCOME < i) :
    _calculateProgressiveTax tbl i = _calculateProgressiveTax tbl MAX_INCOME := by
  have h1 : ∀ p ∈ tbl, p.1 < i := fun p hp => lt_of_le_of_lt (hbound p hp) hi
  have h2 : ∀ p ∈ tbl, p.1 < MAX_INCOME + 1 := fun p hp =>
    lt_of_le_of_lt (hbound p hp) (by norm_num)
  calc _calculateProgressiveTax tbl i
      = _calculateProgressiveTax tbl (MAX_INCOME + 1) :=
        progressiveTaxAux_high i (MAX_INCOME + 1) tbl 0 h1 h2
    _ = _calculateProgressiveTax tbl MAX_INCOME := heq

/-- Claim C2: the progressive evaluator walks the bracket table accumulating
`max(0, min(income, threshold) - previousThreshold) * rate` per bracket;
concretely, `getFederalIncomeTax(100000, 2023)` equals
`22000*0.10 + (89450-22000)*0.12 + (100000-89450)*0.22`. -/
theorem claim_C2_federal_2023_example :
    getFederalIncomeTax 100000 (JSYear.num 2023)
      = .ok (22000 * 0.10 + (89450 - 22000) * 0.12 + ((100000 : ℚ) - 89450) * 0.22) := by
  rw [getFederalIncomeTax, calcIncomeTax_ok 100000 2023 .federal federal2023 (by norm_num)
    (by norm_num [SUPPORTED_YEARS]) (by norm_num [TAX_BRACKETS])]
  norm_num [_calculateProgressiveTax, progressiveTaxAux, federal2023, MAX_INCOME]

/-- Claim C3: for every valid bracket table and all incomes `0 ≤ i1 < i2`,
the progressive tax is monotone, and the tax at income 0 is 0.  (Table
validity is the spec's `BracketTable` invariant; its thresholds are `Money`,
which the spec's data model makes non-negative.) -/
theorem claim_C3_progressive_monotone_and_zero (bs : List (ℚ × ℚ))
    (hv : ValidBracketTable bs) (i1 i2 : ℚ) (_h0 : 0 ≤ i1) (h12 : i1 < i2) :
    _calculateProgressiveTax bs i1 ≤ _calculateProgressiveTax bs i2 ∧
      _calculateProgressiveTax bs 0 = 0 := by
  obtain ⟨-, -, hth, hrate⟩ := hv
  exact ⟨progressiveTaxAux_mono bs 0 i1 i2 (fun p hp => (hrate p hp).1) h12.le,
    progressiveTaxAux_zero bs 0 le_rfl hth⟩

/-- Witness for C3 at the 2023 federal table with incomes 1 < 2. -/
theorem claim_C3_witness :
    _calculateProgressiveTax federal2023 1 ≤ _calculateProgressiveTax federal2023 2 ∧
      _calculateProgressiveTax federal2023 0 = 0 :=
  claim_C3_progressive_monotone_and_zero federal2023 valid_federal2023 1 2
    (by norm_num) (by norm_num)

/-- Counterexample to claim C4: for income 200000000, strictly above the
sentinel threshold `MAX_INCOME = 100000000` of the 2023 federal table, the
progressive tax equals the tax at the sentinel (36929914) and is NOT the
tax at the sentinel plus `0.37 * (income - sentinel)`. -/
theorem claim_C4_counterexample :
    getFederalIncomeTax 200000000 (JSYear.num 2023) = .ok 36929914 ∧
      getFederalIncomeTax 100000000 (JSYear.num 2023) = .ok 36929914 ∧
      (36929914 : ℚ) ≠ 36929914 + 0.37 * (200000000 - 100000000) := by
  refine ⟨?_, ?_, by norm_num⟩ <;>
    rw [getFederalIncomeTax] <;>
    rw [calcIncomeTax_ok _ 2023 .federal federal2023 (by norm_num)
      (by norm_num [SUPPORTED_YEARS]) (by norm_num [TAX_BRACKETS])] <;>
    norm_num [_calculateProgressiveTax, progressiveTaxAux, federal2023, MAX_INCOME]

/-- Claim C4 as amended: for every concrete bracket table and every income
strictly greater than the sentinel `MAX_INCOME`, the progressive tax equals
the tax at the sentinel — the portion above the sentinel is not taxed (the
`min(income, threshold)` clamp makes the sentinel a hard cap), rather than
being taxed at the top rate without cap. -/
theorem claim_C4_amended_sentinel_cap (j : Jurisdiction) (q : ℚ) (bs : List (ℚ × ℚ))
    (hb : TAX_BRACKETS j q = some bs) (i : ℚ) (hi : MAX_INCOME < i) :
    _calculateProgressiveTax bs i = _calculateProgressiveTax bs MAX_INCOME := by
  cases j <;> simp only [TAX_BRACKETS] at hb <;> split_ifs at hb <;> simp at hb <;>
    subst hb <;>
    (first
      | exact progressiveTax_capped bounded_federal2023 capeq_federal2023 hi
      | exact progressiveTax_capped bounded_federal2024 capeq_federal2024 hi
      | exact progressiveTax_capped bounded_federal2025 capeq_federal2025 hi
      | exact progressiveTax_capped bounded_federal2026 capeq_federal2026 hi
      | exact progressiveTax_capped bounded_ny2023 capeq_ny2023 hi
      | exact progressiveTax_capped bounded_ny2024 capeq_ny2024 hi
      | exact progressiveTax_capped bounded_ny2025 capeq_ny2025 hi
      | exact progressiveTax_capped bounded_ny2026 capeq_ny2026 hi
      | exact progressiveTax_capped bounded_ca2023 capeq_ca2023 hi
      | exact progressiveTax_capped bounded_ca2024 capeq_ca2024 hi
      | exact progressiveTax_capped bounded_ca2025 capeq_ca2025 hi
      | exact progressiveTax_capped bounded_ca2026 capeq_ca2026 hi)

/-- Witness for the amended C4: the 2023 federal table at income 150000000. -/
theorem claim_C4_amended_witness :
    _calculateProgressiveTax federal2023 150000000
      = _calculateProgressiveTax federal2023 MAX_INCOME :=
  claim_C4_amended_sentinel_cap .federal 2023 federal2023
    (by norm_num [TAX_BRACKETS]) 150000000 (by norm_num [MAX_INCOME])

theorem lookup_ok_and_unreachable (j : Jurisdiction) (q : ℚ) (tbl : List (ℚ × ℚ))
    (ht : TAX_BRACKETS j q = some tbl) (hv : ValidBracketTable tbl)
    (hq : q ∈ SUPPORTED_YEARS) :
    (∃ bs, TAX_BRACKETS j q = some bs ∧ ValidBracketTable bs) ∧
      ∀ i : ℚ, 0 ≤ i → _calculateIncomeTax i (.num q) j ≠ .error .bracketsUnavailable := by
  refine ⟨⟨tbl, ht, hv⟩, fun i hi => ?_⟩
  rw [calcIncomeTax_ok i q j tbl hi hq ht]
  simp

/-- Claim C10: for every jurisdiction and every supported year, the bracket
lookup succeeds with a non-empty, strictly-increasing table, so the
"tax brackets not available" branch of `_calculateIncomeTax` is unreachable
once validation has passed. -/
theorem claim_C10_bracket_lookup_total (j : Jurisdiction) (q : ℚ)
    (hq : q ∈ SUPPORTED_YEARS) :
    (∃ bs, TAX_BRACKETS j q = some bs ∧ ValidBracketTable bs) ∧
      ∀ i : ℚ, 0 ≤ i → _calculateIncomeTax i (.num q) j ≠ .error .bracketsUnavailable := by
  have hq4 : q = 2023 ∨ q = 2024 ∨ q = 2025 ∨ q = 2026 := by
    simpa [SUPPORTED_YEARS] using hq
  rcases hq4 with h | h | h | h <;> subst h <;> cases j
  · exact lookup_ok_and_unreachable _ _ federal2023 (by norm_num [TAX_BRACKETS])
      valid_federal2023 hq
  · exact lookup_ok_and_unreachable _ _ ny2023 (by norm_num [TAX_BRACKETS]) valid_ny2023 hq
  · exact lookup_ok_and_unreachable _ _ ca2023 (by norm_num [TAX_BRACKETS]) valid_ca2023 hq
  · exact lookup_ok_and_unreachable _ _ federal2024 (by norm_num [TAX_BRACKETS])
      valid_federal2024 hq
  · exact lookup_ok_and_unreachable _ _ ny2024 (by norm_num [TAX_BRACKETS]) valid_ny2024 hq
  · exact lookup_ok_and_unreachable _ _ ca2024 (by norm_num [TAX_BRACKETS]) valid_ca2024 hq
  · exact lookup_ok_and_unreachable _ _ federal2025 (by norm_num [TAX_BRACKETS])
      valid_federal2025 hq
  · exact lookup_ok_and_unreachable _ _ ny2025 (by norm_num [TAX_BRACKETS]) valid_ny2025 hq
  · exact lookup_ok_and_unreachable _ _ ca2025 (by norm_num [TAX_BRACKETS]) valid_ca2025 hq
  · exact lookup_ok_and_unreachable _ _ federal2026 (by norm_num [TAX_BRACKETS])
      valid_federal2026 hq
  · exact lookup_ok_and_unreachable _ _ ny2026 (by norm_num [TAX_BRACKETS]) valid_ny2026 hq
  · exact lookup_ok_and_unreachable _ _ ca2026 (by norm_num [TAX_BRACKETS]) valid_ca2026 hq

/-- Witness for C10: the CA table for 2026 exists and is valid, and the
unavailable-brackets error cannot arise there. -/
theorem claim_C10_witness :
    (∃ bs, TAX_BRACKETS .ca 2026 = some bs ∧ ValidBracketTable bs) ∧
      ∀ i : ℚ, 0 ≤ i → _calculateIncomeTax i (.num 2026) .ca ≠ .error .bracketsUnavailable :=
  claim_C10_bracket_lookup_total .ca 2026 (by norm_num [SUPPORTED_YEARS])

/-- Claim C1, evaluated at the failing input: for qualifiedDividends = 20000
and totalTaxableIncome = 100000 in 2023, the code's flat-rate
`_calculatePreferentialTax` returns 3000 (15% of the whole amount), while
the spec's stacking policy yields 1612.5 (9250 at 0% and 10750 at 15%),
so the code does not implement the stacking policy the claim describes. -/
theorem claim_C1_flat_vs_stacking :
    getQualifiedDividendTax 20000 100000 (JSYear.num 2023) = .ok 3000 ∧
      getLongTermCapitalGainsTax 20000 100000 (JSYear.num 2023) = .ok 3000 ∧
      stackingPreferentialTax qd2023 20000 100000 = 1612.5 ∧
      (3000 : ℚ) ≠ 1612.5 := by
  refine ⟨?_, ?_, ?_, by norm_num⟩ <;>
    norm_num [getQualifiedDividendTax, getLongTermCapitalGainsTax, _calculatePreferentialTax,
      _validateNonNegativeNumber, _validateYear, SUPPORTED_YEARS, qdBracketsFor,
      QUALIFIED_DIVIDEND_BRACKETS, qd2023, applicableRateLoop,
      stackingPreferentialTax, stackingAux, MAX_INCOME]

theorem niit_ok (nii magi y : ℚ) (h1 : 0 ≤ nii) (h2 : 0 ≤ magi) (hy : 2013 ≤ y) :
    getNetInvestmentIncomeTax nii magi (.num y)
      = .ok (min nii (max 0 (magi - NIIT_THRESHOLD)) * NIIT_RATE) := by
  have g1 : ¬ nii < 0 := not_lt.mpr h1
  have g2 : ¬ magi < 0 := not_lt.mpr h2
  have g3 : ¬ y < 2013 := not_lt.mpr hy
  simp [getNetInvestmentIncomeTax, _validateNonNegativeNumber, _validateYear, g1, g2, g3]

/-- Claim C6: for all non-negative inputs and every year at or after 2013,
`getNetInvestmentIncomeTax` returns
`0.038 * min(netInvestmentIncome, max(0, modifiedAGI - 250000))`; it is 0
whenever the modified AGI is at most 250000, and at (30000, 400000) it
returns 1140. -/
theorem claim_C6_niit_formula (nii magi y : ℚ) (h1 : 0 ≤ nii) (h2 : 0 ≤ magi)
    (hy : 2013 ≤ y) :
    getNetInvestmentIncomeTax nii magi (.num y)
        = .ok (0.038 * min nii (max 0 (magi - 250000))) ∧
      (magi ≤ 250000 → getNetInvestmentIncomeTax nii magi (.num y) = .ok 0) ∧
      getNetInvestmentIncomeTax 30000 400000 (.num y) = .ok 1140 := by
  refine ⟨?_, fun hm => ?_, ?_⟩
  · rw [niit_ok nii magi y h1 h2 hy, NIIT_THRESHOLD, NIIT_RATE, mul_comm]
  · rw [niit_ok nii magi y h1 h2 hy, NIIT_THRESHOLD, NIIT_RATE]
    rw [max_eq_left (by linarith), min_eq_right h1, zero_mul]
  · rw [niit_ok 30000 400000 y (by norm_num) (by norm_num) hy]
    norm_num [NIIT_THRESHOLD, NIIT_RATE]

/-- Witness for C6 at (30000, 400000, 2024). -/
theorem claim_C6_witness :
    getNetInvestmentIncomeTax 30000 400000 (JSYear.num 2024) = .ok 1140 :=
  (claim_C6_niit_formula 30000 400000 2024 (by norm_num) (by norm_num) (by norm_num)).2.2

/-- Claim C7: `getNetInvestmentIncomeTax` applies a minimum-year check, not
membership in the supported-years set: every numeric year at or after 2013
(also outside {2023, 2024, 2025, 2026}) succeeds with a result; every
numeric year before 2013, and every non-numeric year (which fails the
`typeof` guard), raises the "Year must be 2013 or later" error. -/
theorem claim_C7_niit_minimum_year_check (nii magi y : ℚ) (h1 : 0 ≤ nii) (h2 : 0 ≤ magi) :
    (2013 ≤ y → ∃ v, getNetInvestmentIncomeTax nii magi (.num y) = .ok v) ∧
      (y < 2013 → getNetInvestmentIncomeTax nii magi (.num y)
          = .error (.unsupportedYearMin 2013)) ∧
      getNetInvestmentIncomeTax nii magi .nonNumber = .error (.unsupportedYearMin 2013) := by
  have g1 : ¬ nii < 0 := not_lt.mpr h1
  have g2 : ¬ magi < 0 := not_lt.mpr h2
  refine ⟨fun hy => ⟨_, niit_ok nii magi y h1 h2 hy⟩, fun hy => ?_, ?_⟩
  · simp [getNetInvestmentIncomeTax, _validateNonNegativeNumber, _validateYear, g1, g2, hy]
  · simp [getNetInvestmentIncomeTax, _validateNonNegativeNumber, _validateYear, g1, g2]

/-- Witness for C7: the year 2030, outside the supported set, succeeds;
the year 2000 and a non-numeric year are rejected. -/
theorem claim_C7_witness :
    (∃ v, getNetInvestmentIncomeTax 30000 400000 (JSYear.num 2030) = .ok v) ∧
      getNetInvestmentIncomeTax 30000 400000 (JSYear.num 2000)
        = .error (.unsupportedYearMin 2013) ∧
      getNetInvestmentIncomeTax 30000 400000 .nonNumber
        = .error (.unsupportedYearMin 2013) := by
  have h := claim_C7_niit_minimum_year_check 30000 400000 2030 (by norm_num) (by norm_num)
  have h2 := claim_C7_niit_minimum_year_check 30000 400000 2000 (by norm_num) (by norm_num)
  exact ⟨h.1 (by norm_num), h2.2.1 (by norm_num), h2.2.2⟩

theorem getChildTaxCredit_eq (n : ℤ) (agi q : ℚ) (cd : ℚ × ℚ)
    (hn : 0 ≤ n) (ha : 0 ≤ agi) (hq : q ∈ SUPPORTED_YEARS)
    (hcd : CHILD_TAX_CREDIT_AMOUNTS q = some cd) (hc : cd.1 ≠ 0) :
    getChildTaxCredit n agi (.num q) =
      .ok (if n = 0 then 0
        else if agi ≤ 400000 then cd.1 * n
        else max 0 (cd.1 * n - (⌈(agi - 400000) / 1000⌉ : ℤ) * 50)) := by
  have g1 : ¬ n < 0 := not_lt.mpr hn
  have g2 : ¬ agi < 0 := not_lt.mpr ha
  have h3 : (n = 0 ∨ cd.1 * (n : ℚ) = 0) ↔ n = 0 := by
    constructor
    · rintro (h | h)
      · exact h
      · rcases mul_eq_zero.mp h with h | h
        · exact absurd h hc
        · exact_mod_cast h
    · exact fun h => Or.inl h
  simp only [getChildTaxCredit, _validateNonNegativeNumber, _validateYear, childCreditFor,
    CTC_PHASE_OUT_THRESHOLD, CTC_PHASE_OUT_RATE, CTC_PHASE_OUT_INCREMENT,
    g1, g2, hq, hcd, if_false, if_true, ite_true, ite_false, h3]
  split_ifs <;> rfl

/-- Claim C5: for every supported year, non-negative integer child count and
non-negative modified AGI, `getChildTaxCredit` returns the base credit
`creditPerChild * numberOfChildren` when the AGI is at most 400000, and
otherwise `max(0, baseCredit - ceil((modifiedAGI - 400000)/1000) * 50)`
with partial increments rounding up; for zero children it returns 0
regardless of income. -/
theorem claim_C5_child_tax_credit (n : ℤ) (agi q : ℚ) (cd : ℚ × ℚ)
    (hn : 0 ≤ n) (ha : 0 ≤ agi) (hq : q ∈ SUPPORTED_YEARS)
    (hcd : CHILD_TAX_CREDIT_AMOUNTS q = some cd) :
    getChildTaxCredit n agi (.num q) =
      .ok (if n = 0 then 0
        else if agi ≤ 400000 then cd.1 * n
        else max 0 (cd.1 * n - (⌈(agi - 400000) / 1000⌉ : ℤ) * 50)) := by
  have hc : cd.1 ≠ 0 := by
    have hq4 : q = 2023 ∨ q = 2024 ∨ q = 2025 ∨ q = 2026 := by
      simpa [SUPPORTED_YEARS] using hq
    rcases hq4 with h | h | h | h <;> subst h <;>
      rw [CHILD_TAX_CREDIT_AMOUNTS] at hcd <;> norm_num at hcd <;>
      rw [← hcd] <;> norm_num
  exact getChildTaxCredit_eq n agi q cd hn ha hq hcd hc

/-- Witness for C5: `getChildTaxCredit(3, 450000, 2025) = 4100`
(base 6600, 50 increments of 50 in reduction). -/
theorem claim_C5_witness :
    getChildTaxCredit 3 450000 (JSYear.num 2025) = .ok 4100 := by
  rw [claim_C5_child_tax_credit 3 450000 2025 (2200, 1700) (by norm_num) (by norm_num)
    (by norm_num [SUPPORTED_YEARS]) (by norm_num [CHILD_TAX_CREDIT_AMOUNTS])]
  norm_num

/-- Counterexample to claim C8: `getNYIncomeTax(17151, 2023)` returns
exactly 686.045 (the raw bracket arithmetic 17150*0.04 + 1*0.045), which is
not an integer multiple of 0.01 — no rounding to two decimal places is
applied anywhere, and rounding this result again would change it. -/
theorem claim_C8_counterexample :
    getNYIncomeTax 17151 (JSYear.num 2023) = .ok 686.045 ∧
      ¬ ∃ m : ℤ, (686.045 : ℚ) = m * 0.01 := by
  constructor
  · rw [getNYIncomeTax, calcIncomeTax_ok 17151 2023 .ny ny2023 (by norm_num)
      (by norm_num [SUPPORTED_YEARS]) (by norm_num [TAX_BRACKETS])]
    norm_num [_calculateProgressiveTax, progressiveTaxAux, ny2023, MAX_INCOME]
  · rintro ⟨m, hm⟩
    have h2 : (2 * m : ℚ) = 137209 := by linarith
    have h3 : (2 * m : ℤ) = 137209 := by exact_mod_cast h2
    omega

/-- Claim C8 as amended: no rounding is applied at any boundary — every
public entry point returns the exact unrounded arithmetic result; in
particular `getCAIncomeTax` returns exactly the sum of the base bracket
tax and the Mental Health Services surtax (composition without any
per-component or final rounding). -/
theorem claim_C8_amended_unrounded_composition (i q : ℚ) (tbl : List (ℚ × ℚ))
    (hi : 0 ≤ i) (hq : q ∈ SUPPORTED_YEARS) (ht : TAX_BRACKETS .ca q = some tbl) :
    getCAIncomeTax i (.num q)
      = .ok (_calculateProgressiveTax tbl i + _calculateCAMentalHealthTax i) := by
  rw [getCAIncomeTax, calcIncomeTax_ok i q .ca tbl hi hq ht]

/-- Witness for the amended C8 at income 2000000 in CA for 2023. -/
theorem claim_C8_amended_witness :
    getCAIncomeTax 2000000 (JSYear.num 2023)
      = .ok (_calculateProgressiveTax ca2023 2000000 + _calculateCAMentalHealthTax 2000000) :=
  claim_C8_amended_unrounded_composition 2000000 2023 ca2023 (by norm_num)
    (by norm_num [SUPPORTED_YEARS]) (by norm_num [TAX_BRACKETS])

/-- Counterexample to claim C9: the guard
`typeof value !== 'number' || value < 0` cannot fire on the numeric values
`Infinity` and `NaN` (`Infinity < 0` and `NaN < 0` are both false), so
`getFederalIncomeTax(Infinity, 2023)` validates, computes, and returns the
numeric result 36929914 (each bracket slice is clamped by
`min(Infinity, threshold) = threshold`), and `getFederalIncomeTax(NaN, 2023)`
returns `NaN` — neither call raises an error. -/
theorem claim_C9_counterexample :
    getFederalIncomeTaxJS JSNum.inf (JSYear.num 2023) = .ok (.num 36929914) ∧
      getFederalIncomeTaxJS JSNum.nan (JSYear.num 2023) = .ok .nan := by
  constructor <;>
    norm_num [getFederalIncomeTaxJS, _validateNonNegativeNumberJS, JSNum.lt, _validateYear,
      SUPPORTED_YEARS, bracketsFor, TAX_BRACKETS, federal2023, MAX_INCOME,
      progressiveTaxJSAux, JSNum.min, JSNum.max, JSNum.sub, JSNum.add, JSNum.mul, JSNum.le]

/-- Claim C9 as amended: a negative monetary input is rejected by every
public entry point with the invalid-amount error naming the offending
field, before any table lookup or arithmetic (the year argument is
arbitrary here, including invalid ones, and no numeric result is
produced); the non-finite values `NaN` and `Infinity`, however, pass the
validation (see the counterexample). -/
theorem claim_C9_amended_negative_rejected (x t : ℚ) (n : ℤ) (y : JSYear)
    (hx : x < 0) (hn : 0 ≤ n) :
    getFederalIncomeTax x y = .error (.invalidAmount "Income") ∧
      getNYIncomeTax x y = .error (.invalidAmount "Income") ∧
      getCAIncomeTax x y = .error (.invalidAmount "Income") ∧
      getQualifiedDividendTax x t y = .error (.invalidAmount "Qualified dividends") ∧
      getLongTermCapitalGainsTax x t y = .error (.invalidAmount "Long-term capital gains") ∧
      getNetInvestmentIncomeTax x t y = .error (.invalidAmount "Net investment income") ∧
      getChildTaxCredit n x y = .error (.invalidAmount "Modified AGI") := by
  have g : ¬ n < 0 := not_lt.mpr hn
  refine ⟨?_, ?_, ?_, ?_, ?_, ?_, ?_⟩ <;>
    simp [getFederalIncomeTax, getNYIncomeTax, getCAIncomeTax, _calculateIncomeTax,
      _validateTaxInputs, getQualifiedDividendTax, getLongTermCapitalGainsTax,
      _calculatePreferentialTax, getNetInvestmentIncomeTax, getChildTaxCredit,
      _validateNonNegativeNumber, hx, g]

/-- Witness for the amended C9 at x = -1 with an invalid year value. -/
theorem claim_C9_amended_witness :
    getFederalIncomeTax (-1) .nonNumber = .error (.invalidAmount "Income") ∧
      getChildTaxCredit 2 (-1) .nonNumber = .error (.invalidAmount "Modified AGI") := by
  have h := claim_C9_amended_negative_rejected (-1) 5 2 .nonNumber (by norm_num) (by norm_num)
  exact ⟨h.1, h.2.2.2.2.2.2⟩
